import Mathlib

/-!
Verification development for the `clopts` command-line option parser
(`src/include/clopts.hh`). The option descriptors, option storage, and the
runtime parsing engine (`parse`, `handle_regular_impl`, `handle_opt_with_arg`,
`dispatch_option_with_arg`, `handle_positional_impl`, `parse_number`,
`collect_references`, the required-option scan and the stop-parsing sentinel)
are embedded as executable Lean functions, translated clause by clause from
the C++ source. Strings are modelled as sequences of characters; the C++
code operates on bytes, which coincides with this model on the ASCII data
considered throughout. Machine integers are modelled as `Nat`/`Int` with
explicit reduction modulo `2 ^ 64` where the C++ performs unsigned
`strtoull` arithmetic and a conversion to `int64_t`.
-/

namespace Clopts

/-- String primitives over the character list, mirroring the byte-level
`starts_with`, `size`, `substr` and indexing operations of the source. -/
def strStartsWith (s pre : String) : Bool :=
  pre.toList.isPrefixOf s.toList

def strLen (s : String) : Nat := s.toList.length

def strDrop (s : String) (n : Nat) : String := String.mk (s.toList.drop n)

def strTake (s : String) (n : Nat) : String := String.mk (s.toList.take n)

def strCharAt (s : String) (n : Nat) : Option Char := s.toList.get? n

/-- The declared value type of one option. `handle_regular_impl` treats
`flag` (C++ `bool`) as the only argument-less kind modelled here;
`valuesInt` is `values<ints...>` and `refStr` is `ref<std::string, names...>`. -/
inductive OptTy where
  | str : OptTy
  | int : OptTy
  | flag : OptTy
  | valuesInt : List Int → OptTy
  | refStr : List String → OptTy
deriving Repr, DecidableEq

/-- One option descriptor: name, value kind and the `multiple<>`,
`required`, `overridable`, `positional<>` and (experimental) short-option
markers of the source's `opt_impl` and its wrappers. -/
structure OptDesc where
  name : String
  ty : OptTy
  multiple : Bool
  required : Bool
  overridable : Bool
  positional : Bool
  isShort : Bool
deriving Repr, DecidableEq

/-- A parsed single value. -/
inductive Val where
  | vStr : String → Val
  | vInt : Int → Val
  | vBool : Bool → Val
deriving Repr, DecidableEq

/-- The per-match snapshot of one referenced option
(`ref_storage_type_t`): a plain `bool` for flags, a deep copy of the list
for `multiple<>` options, and an `optional` of the value otherwise. -/
inductive RefSnap where
  | flagSnap : Bool → RefSnap
  | multiSnap : List Val → RefSnap
  | singleSnap : Option Val → RefSnap
deriving Repr, DecidableEq

/-- Storage cell of one option (`storage_type_t`), with a field for every
storage shape; only the field selected by the option's kind is ever used,
mirroring the one concrete `storage_type_t` instantiated per option. -/
structure Slot where
  found : Bool
  singleVal : Val
  multiVals : List Val
  singleTup : Val × List RefSnap
  multiTups : List (Val × List RefSnap)
deriving Repr, DecidableEq

def defaultSlot : Slot :=
  ⟨false, Val.vStr "", [], (Val.vStr "", []), []⟩

instance : Inhabited Slot := ⟨defaultSlot⟩

/-- The messages passed to `handle_error`, one constructor per
`handle_error` call site in the source, carrying the same data that the
source interpolates into the message string. -/
inductive ErrMsg where
  | duplicateOption : String → ErrMsg
  | missingArgument : String → ErrMsg
  | emptyNumber : String → ErrMsg
  | badNumber : String → String → ErrMsg
  | invalidValue : String → String → ErrMsg
  | unrecognized : String → ErrMsg
  | missingRequired : String → ErrMsg
deriving Repr, DecidableEq

/-- Mutable parser state: the storage slots (with the found bits), the
errors reported so far and the `has_error` flag. -/
structure PState where
  slots : List Slot
  errors : List ErrMsg
  hasError : Bool
deriving Repr, DecidableEq

/-- `optindex<name>`: index of the first option with the given name. -/
def optIndex (opts : List OptDesc) (n : String) : Nat :=
  opts.findIdx (fun o => o.name == n)

/-- `found<option>()`: read a slot's found bit. -/
def slotFound (st : PState) (i : Nat) : Bool :=
  (st.slots.getD i defaultSlot).found

/-- `handle_error`: append the message and overwrite `has_error` with the
negated verdict of the error handler. -/
def handleError (eh : ErrMsg → Bool) (st : PState) (m : ErrMsg) : PState :=
  { st with errors := st.errors ++ [m], hasError := !(eh m) }

/-- `set_found<option>()`. -/
def set_found (i : Nat) (st : PState) : PState :=
  { st with slots := st.slots.set i { st.slots.getD i defaultSlot with found := true } }

/-- `store_option_value<is_multiple>` for non-`ref<>` options: `push_back`
for `multiple<>`, assignment otherwise. -/
def store_option_value (i : Nat) (isMultiple : Bool) (v : Val) (st : PState) : PState :=
  let s := st.slots.getD i defaultSlot
  let s1 := if isMultiple = true
    then { s with multiVals := s.multiVals ++ [v] }
    else { s with singleVal := v }
  { st with slots := st.slots.set i s1 }

/-- `store_option_value<is_multiple>` for `ref<>` options, whose element is
the reference tuple. -/
def store_option_value_tuple (i : Nat) (isMultiple : Bool) (t : Val × List RefSnap)
    (st : PState) : PState :=
  let s := st.slots.getD i defaultSlot
  let s1 := if isMultiple = true
    then { s with multiTups := s.multiTups ++ [t] }
    else { s with singleTup := t }
  { st with slots := st.slots.set i s1 }

/-- Default (value-initialised) snapshot of a referenced option, by its
storage shape. -/
def defaultSnap (o : OptDesc) : RefSnap :=
  if o.ty = OptTy.flag then RefSnap.flagSnap false
  else if o.multiple = true then RefSnap.multiSnap []
  else RefSnap.singleSnap none

/-- `add_referenced_option<index, name>`: if the referenced option's found
bit is set, capture `true` for a flag, a deep copy of the list for a
`multiple<>` option, and `make_optional` of the value otherwise; leave the
default snapshot when the option has not been found. -/
def add_referenced_option (opts : List OptDesc) (slots : List Slot) (n : String) : RefSnap :=
  let i := optIndex opts n
  match opts.get? i with
  | none => RefSnap.singleSnap none
  | some o =>
    if (slots.getD i defaultSlot).found = true then
      if o.ty = OptTy.flag then RefSnap.flagSnap true
      else if o.multiple = true then RefSnap.multiSnap (slots.getD i defaultSlot).multiVals
      else RefSnap.singleSnap (some (slots.getD i defaultSlot).singleVal)
    else defaultSnap o

/-- `collect_references` / `add_referenced_options`: capture, in order, the
snapshot of every option named in the `ref<>` argument list. -/
def collect_references (opts : List OptDesc) (slots : List Slot)
    (names : List String) : List RefSnap :=
  names.map (add_referenced_option opts slots)

/-- The `isspace` characters skipped by `strtoull`. -/
def isSpaceChar (c : Char) : Bool :=
  c == ' ' || c == '\t' || c == '\n' || c == '\x0b' || c == '\x0c' || c == '\r'

def digitsToNat (l : List Char) : Nat :=
  l.foldl (fun a c => a * 10 + (c.toNat - 48)) 0

def UINT64_MAX : Nat := 2 ^ 64 - 1

/-- `std::strtoull(s, &pos, 10)` after the leading whitespace has been
dropped: an optional sign followed by a maximal digit run, clamped to
`ULLONG_MAX` with a range error when the numeral exceeds it, and negated in
unsigned (modulo `2 ^ 64`) arithmetic for a leading minus. Returns the
unsigned result, the number of characters consumed, and the range-error
(`errno == ERANGE`) flag; nothing is consumed when no digit is present. -/
def strtoull10core (l : List Char) : Nat × Nat × Bool :=
  let signAndRest : Bool × Nat × List Char :=
    match l with
    | '-' :: rest => (true, 1, rest)
    | '+' :: rest => (false, 1, rest)
    | rest => (false, 0, rest)
  let digs := signAndRest.2.2.takeWhile Char.isDigit
  if digs.length = 0 then (0, 0, false)
  else
    let n := digitsToNat digs
    let consumed := signAndRest.2.1 + digs.length
    if UINT64_MAX < n then (UINT64_MAX, consumed, true)
    else ((if signAndRest.1 = true then (2 ^ 64 - n % 2 ^ 64) % 2 ^ 64 else n), consumed, false)

/-- Full `strtoull` in base 10, including the leading-whitespace skip. -/
def strtoull10 (l : List Char) : Nat × Nat × Bool :=
  let ws := (l.takeWhile isSpaceChar).length
  let r := strtoull10core (l.drop ws)
  if r.2.1 = 0 then (r.1, 0, r.2.2) else (r.1, ws + r.2.1, r.2.2)

/-- The conversion `int64_t(unsigned long long value)`: two's-complement
wrap-around into the signed 64-bit range. -/
def toInt64 (n : Nat) : Int :=
  if n % 2 ^ 64 < 2 ^ 63 then ((n % 2 ^ 64 : Nat) : Int)
  else ((n % 2 ^ 64 : Nat) : Int) - 2 ^ 64

/-- `parse_number<int64_t, "integer">`: the empty string is an error; the
string is parsed by `strtoull`, and a range error or any unconsumed trailing
character is an error. The (possibly partial or wrapped) numeric result is
returned in every case. -/
def parse_number (eh : ErrMsg → Bool) (s : String) (st : PState) : Int × PState :=
  if s = "" then (0, handleError eh st (ErrMsg.emptyNumber "integer"))
  else
    let r := strtoull10 s.toList
    let i := toInt64 r.1
    if r.2.2 = true ∨ r.2.1 ≠ strLen s then
      (i, handleError eh st (ErrMsg.badNumber s "integer"))
    else (i, st)

/-- `make_arg<opt>`: strings (and the string payload of a `ref<>`) pass
through unchanged; integers (including the underlying type of an integer
`values<>`) go through `parse_number`. The `flag` case is unreachable in the
source (`CLOPTS_ERR`). -/
def make_arg (eh : ErrMsg → Bool) (o : OptDesc) (optVal : String) (st : PState) : Val × PState :=
  match o.ty with
  | OptTy.str => (Val.vStr optVal, st)
  | OptTy.refStr _ => (Val.vStr optVal, st)
  | OptTy.flag => (Val.vBool false, st)
  | OptTy.int =>
    let r := parse_number eh optVal st
    (Val.vInt r.1, r.2)
  | OptTy.valuesInt _ =>
    let r := parse_number eh optVal st
    (Val.vInt r.1, r.2)

/-- `values_impl::is_valid_option_value`: the fold of equality tests
against every allowed literal. -/
def is_valid_option_value (allowed : List Int) (v : Val) : Bool :=
  match v with
  | Val.vInt n => allowed.any (fun a => a == n)
  | _ => false

/-- `dispatch_option_with_arg<opt, is_multiple>`: mark the option found,
convert the raw text, check `values<>` membership (reporting a
value-not-allowed error on failure), and commit into storage — a reference
tuple built from the current slots for `ref<>` options, the plain value
otherwise. -/
def dispatch_option_with_arg (eh : ErrMsg → Bool) (opts : List OptDesc) (i : Nat)
    (o : OptDesc) (optName optVal : String) (st : PState) : PState :=
  let st1 := set_found i st
  let vs := make_arg eh o optVal st1
  let st3 :=
    match o.ty with
    | OptTy.valuesInt allowed =>
      if is_valid_option_value allowed vs.1 = true then vs.2
      else handleError eh vs.2 (ErrMsg.invalidValue optName optVal)
    | _ => vs.2
  match o.ty with
  | OptTy.refStr names =>
    store_option_value_tuple i o.multiple (vs.1, collect_references opts st3.slots names) st3
  | _ => store_option_value i o.multiple vs.1 st3

/-- `handle_opt_with_arg<opt, is_multiple>`: if the token is longer than
the name, accept it as an inline `=`-value (or a short-option value),
otherwise reject this candidate; on an exact-length match consume the next
token as the value, reporting a missing-argument error when `argv` is
exhausted. Returns the matched flag, the updated cursor and the state. -/
def handle_opt_with_arg (eh : ErrMsg → Bool) (opts : List OptDesc) (args : List String)
    (i : Nat) (o : OptDesc) (tok : String) (argi : Nat) (st : PState) :
    Bool × Nat × PState :=
  if strLen o.name < strLen tok then
    if strCharAt tok (strLen o.name) = some '=' ∨ o.isShort = true then
      let offs := strLen o.name + (if strCharAt tok (strLen o.name) = some '=' then 1 else 0)
      (true, argi, dispatch_option_with_arg eh opts i o (strTake tok offs) (strDrop tok offs) st)
    else (false, argi, st)
  else
    if h : argi + 1 < args.length then
      (true, argi + 1, dispatch_option_with_arg eh opts i o tok (args.get ⟨argi + 1, h⟩) st)
    else (false, argi + 1, handleError eh st (ErrMsg.missingArgument tok))

/-- `handle_regular_impl<opt>`: reject unless the token starts with the
option name; report a duplicate-option error (and reject) for a repeated
non-`multiple<>`, non-overridable option; flags require exact token
equality; everything else goes through `handle_opt_with_arg`. -/
def handle_regular_impl (eh : ErrMsg → Bool) (opts : List OptDesc) (args : List String)
    (i : Nat) (o : OptDesc) (tok : String) (argi : Nat) (st : PState) :
    Bool × Nat × PState :=
  if strStartsWith tok o.name = true then
    if o.multiple = false ∧ o.overridable = false ∧ slotFound st i = true then
      (false, argi, handleError eh st (ErrMsg.duplicateOption tok))
    else if o.ty = OptTy.flag then
      if tok = o.name then (true, argi, set_found i st) else (false, argi, st)
    else handle_opt_with_arg eh opts args i o tok argi st
  else (false, argi, st)

/-- The left-to-right fold of `handle_regular` over the declared options,
skipping positional descriptors and stopping at the first candidate that
reports a match; state updates of rejected candidates persist. -/
def handleRegularList (eh : ErrMsg → Bool) (opts : List OptDesc) (args : List String) :
    List (Nat × OptDesc) → String → Nat → PState → Bool × Nat × PState
  | [], _, argi, st => (false, argi, st)
  | (i, o) :: rest, tok, argi, st =>
    if o.positional = true then handleRegularList eh opts args rest tok argi st
    else
      match handle_regular_impl eh opts args i o tok argi st with
      | (true, argi1, st1) => (true, argi1, st1)
      | (false, argi1, st1) => handleRegularList eh opts args rest tok argi1 st1

/-- `handle_regular`: try every non-positional option in declaration
order. -/
def handle_regular (eh : ErrMsg → Bool) (opts : List OptDesc) (args : List String)
    (tok : String) (argi : Nat) (st : PState) : Bool × Nat × PState :=
  handleRegularList eh opts args opts.enum tok argi st

/-- `handle_positional_impl<opt>`: a non-`multiple<>` positional that was
already found rejects the token; otherwise the token is dispatched as this
option's value. -/
def handle_positional_impl (eh : ErrMsg → Bool) (opts : List OptDesc) (i : Nat)
    (o : OptDesc) (tok : String) (st : PState) : Bool × PState :=
  if o.multiple = false ∧ slotFound st i = true then (false, st)
  else (true, dispatch_option_with_arg eh opts i o o.name tok st)

/-- The fold of `handle_positional` over the declared options, skipping
non-positional descriptors. -/
def handlePositionalList (eh : ErrMsg → Bool) (opts : List OptDesc) :
    List (Nat × OptDesc) → String → PState → Bool × PState
  | [], _, st => (false, st)
  | (i, o) :: rest, tok, st =>
    if o.positional = true then
      match handle_positional_impl eh opts i o tok st with
      | (true, st1) => (true, st1)
      | (false, st1) => handlePositionalList eh opts rest tok st1
    else handlePositionalList eh opts rest tok st

/-- `handle_positional`: try every positional option in declaration
order. -/
def handle_positional (eh : ErrMsg → Bool) (opts : List OptDesc) (tok : String)
    (st : PState) : Bool × PState :=
  handlePositionalList eh opts opts.enum tok st

/-- How the scan loop exited: `argv` exhausted, a stop-parsing sentinel
matched, or an abort requested by the error handler. -/
inductive ExitKind where
  | normal : ExitKind
  | stopped : ExitKind
  | errored : ExitKind
deriving Repr, DecidableEq

/-- The main scan loop of `parse()`: per token, try the stop-parsing
sentinels, then the regular options, then the positionals, reporting an
unrecognized-option error if nothing matched, and abort as soon as
`has_error` is set. The cursor is zero-based into the argument list (the
program name, `argv[0]`, is not part of it). Fuel only bounds the
recursion; `parse` supplies enough for the whole argument list. -/
def scanLoop (eh : ErrMsg → Bool) (opts : List OptDesc) (stops : List String)
    (args : List String) : Nat → Nat → PState → Nat × PState × ExitKind
  | 0, argi, st => (argi, st, ExitKind.normal)
  | Nat.succ fuel, argi, st =>
    match args.get? argi with
    | none => (argi, st, ExitKind.normal)
    | some tok =>
      if tok ∈ stops then (argi + 1, st, ExitKind.stopped)
      else
        match handle_regular eh opts args tok argi st with
        | (true, argi1, st1) =>
          if st1.hasError = true then (argi1, st1, ExitKind.errored)
          else scanLoop eh opts stops args fuel (argi1 + 1) st1
        | (false, argi1, st1) =>
          match handle_positional eh opts tok st1 with
          | (true, st2) =>
            if st2.hasError = true then (argi1, st2, ExitKind.errored)
            else scanLoop eh opts stops args fuel (argi1 + 1) st2
          | (false, st2) =>
            let st3 := handleError eh st2 (ErrMsg.unrecognized tok)
            if st3.hasError = true then (argi1, st3, ExitKind.errored)
            else scanLoop eh opts stops args fuel (argi1 + 1) st3

/-- The end-of-input scan of `parse()`: report a missing-required-option
error for every required option whose found bit is unset, in declaration
order, regardless of earlier errors. -/
def requiredScanList (eh : ErrMsg → Bool) (opts : List OptDesc) :
    List OptDesc → PState → PState
  | [], st => st
  | o :: rest, st =>
    if slotFound st (optIndex opts o.name) = false ∧ o.required = true then
      requiredScanList eh opts rest (handleError eh st (ErrMsg.missingRequired o.name))
    else requiredScanList eh opts rest st

def required_scan (eh : ErrMsg → Bool) (opts : List OptDesc) (st : PState) : PState :=
  requiredScanList eh opts opts st

/-- Per-option default storage (value-initialised `optvals_tuple_t`). -/
def defVal : OptTy → Val
  | OptTy.str => Val.vStr ""
  | OptTy.int => Val.vInt 0
  | OptTy.flag => Val.vBool false
  | OptTy.valuesInt _ => Val.vInt 0
  | OptTy.refStr _ => Val.vStr ""

def defaultOptDesc : OptDesc :=
  ⟨"", OptTy.str, false, false, false, false, false⟩

def initSlot (opts : List OptDesc) (o : OptDesc) : Slot :=
  { found := false
    singleVal := defVal o.ty
    multiVals := []
    singleTup := (defVal o.ty,
      match o.ty with
      | OptTy.refStr names =>
        names.map (fun n => defaultSnap ((opts.find? (fun p => p.name == n)).getD defaultOptDesc))
      | _ => [])
    multiTups := [] }

/-- The result handed back by `parse()` (`optvals_type`): the storage
slots with the found bits, the reported errors, the final `has_error` flag
and the unprocessed tail. -/
structure ParseResult where
  slots : List Slot
  errors : List ErrMsg
  hasError : Bool
  unprocessed : List String
deriving Repr, DecidableEq

/-- The parser state at the start of `parse()`: value-initialised storage,
no errors. -/
def initState (opts : List OptDesc) : PState :=
  ⟨opts.map (initSlot opts), [], false⟩

/-- `parse()`: run the scan loop from the first argument; unless the loop
aborted on an error, run the required-option scan and record the
unprocessed tail (the arguments after a matched stop-parsing sentinel;
empty when no sentinel option exists). -/
def runParse (opts : List OptDesc) (stops : List String) (eh : ErrMsg → Bool)
    (args : List String) : ParseResult :=
  match scanLoop eh opts stops args (args.length + 1) 0 (initState opts) with
  | (_, st, ExitKind.errored) => ⟨st.slots, st.errors, st.hasError, []⟩
  | (argi, st, _) =>
    let st1 := required_scan eh opts st
    ⟨st1.slots, st1.errors, st1.hasError, if stops.isEmpty = true then [] else args.drop argi⟩

/-- Accessor layer (`optvals_type`): slot lookup by name. -/
def ParseResult.slotOf (r : ParseResult) (opts : List OptDesc) (n : String) : Slot :=
  r.slots.getD (optIndex opts n) defaultSlot

/-- `has`-style query: the found bit. -/
def ParseResult.hasOpt (r : ParseResult) (opts : List OptDesc) (n : String) : Bool :=
  (r.slotOf opts n).found

/-- `get<>` on a single-valued non-flag option: the value when found,
absent otherwise. -/
def ParseResult.getOpt (r : ParseResult) (opts : List OptDesc) (n : String) : Option Val :=
  if (r.slotOf opts n).found = true then some (r.slotOf opts n).singleVal else none

/-- `get<>` on a `multiple<>` non-`ref<>` option: the accumulated list. -/
def ParseResult.getMultiple (r : ParseResult) (opts : List OptDesc) (n : String) : List Val :=
  (r.slotOf opts n).multiVals

/-- `get<>` on a `multiple<ref<>>` option: the accumulated tuples. -/
def ParseResult.getTuples (r : ParseResult) (opts : List OptDesc) (n : String) :
    List (Val × List RefSnap) :=
  (r.slotOf opts n).multiTups

/-- A plain (single, optional, non-overridable, non-positional) option. -/
def mkOpt (n : String) (ty : OptTy) : OptDesc :=
  ⟨n, ty, false, false, false, false, false⟩

/-- An always-continue error handler (the handler returns `true`). -/
def ehTrue : ErrMsg → Bool := fun _ => true

/-- Descriptor set with the two string options `-x` and `-xyz`, in this
declaration order. -/
def xXyzOpts : List OptDesc := [mkOpt "-x" OptTy.str, mkOpt "-xyz" OptTy.str]

/-- Descriptor set with an overridable string option `-x` and a
`multiple<>` option `-y` of type `ref<std::string, "-x">`. -/
def refOpts : List OptDesc :=
  [{ mkOpt "-x" OptTy.str with overridable := true },
   { mkOpt "-y" (OptTy.refStr ["-x"]) with multiple := true }]

/-- Descriptor set with a flag `--f`, a `multiple<>` string option `-v`
and a `multiple<>` option `-y` of type `ref<std::string, "--f", "-v">`. -/
def refOpts2 : List OptDesc :=
  [mkOpt "--f" OptTy.flag,
   { mkOpt "-v" OptTy.str with multiple := true },
   { mkOpt "-y" (OptTy.refStr ["--f", "-v"]) with multiple := true }]

/-- Descriptor set with one integer option `--overflow`. -/
def overflowOpts : List OptDesc := [mkOpt "--overflow" OptTy.int]

/-- Descriptor set with one required string option `-r`. -/
def requiredOpts : List OptDesc := [{ mkOpt "-r" OptTy.str with required := true }]

/-- Descriptor set with one string option `--foo` (used together with the
stop-parsing sentinel `--`). -/
def fooOpts : List OptDesc := [mkOpt "--foo" OptTy.str]

/-- Two optional single positional string options, declared in the order
`first`, `second`. -/
def posOpts : List OptDesc :=
  [{ mkOpt "first" OptTy.str with positional := true },
   { mkOpt "second" OptTy.str with positional := true }]

/-- The positional pair of `posOpts` together with a named string option
`--opt` declared before them. -/
def posOptsMixed : List OptDesc :=
  [mkOpt "--opt" OptTy.str,
   { mkOpt "first" OptTy.str with positional := true },
   { mkOpt "second" OptTy.str with positional := true }]

/-- Descriptor set with one integer `values<2, 3, 5, 7, 11, 13>` option
`--prime`. -/
def primeOpts : List OptDesc := [mkOpt "--prime" (OptTy.valuesInt [2, 3, 5, 7, 11, 13])]

/-- Descriptor set with one `multiple<>` integer option `--int`. -/
def multiIntOpts : List OptDesc := [{ mkOpt "--int" OptTy.int with multiple := true }]

/-- Descriptor set with one integer option `-n`. -/
def intOpts : List OptDesc := [mkOpt "-n" OptTy.int]

/-! Helper lemmas about the embedded parser. -/

theorem list_getElem?_set_self {α : Type} (l : List α) (i : Nat) (a : α)
    (h : i < l.length) : (l.set i a)[i]? = some a := by
  induction l generalizing i with
  | nil => simp at h
  | cons x xs ih =>
    cases i with
    | zero => simp
    | succ n => simpa using ih n (by simpa using h)

theorem list_getD_set_self {α : Type} (l : List α) (i : Nat) (a d : α)
    (h : i < l.length) : (l.set i a).getD i d = a := by
  rw [List.getD_eq_getElem?_getD, list_getElem?_set_self _ _ _ h]
  rfl

theorem handleError_slots (eh : ErrMsg → Bool) (st : PState) (m : ErrMsg) :
    (handleError eh st m).slots = st.slots := rfl

theorem handleError_errors (eh : ErrMsg → Bool) (st : PState) (m : ErrMsg) :
    (handleError eh st m).errors = st.errors ++ [m] := rfl

theorem parse_number_slots (eh : ErrMsg → Bool) (s : String) (st : PState) :
    (parse_number eh s st).2.slots = st.slots := by
  unfold parse_number
  split
  · rfl
  · dsimp only
    split
    · rfl
    · rfl

theorem make_arg_slots (eh : ErrMsg → Bool) (o : OptDesc) (v : String) (st : PState) :
    (make_arg eh o v st).2.slots = st.slots := by
  unfold make_arg
  cases o.ty <;> simp [parse_number_slots]

theorem set_found_found (i : Nat) (st : PState) (h : i < st.slots.length) :
    slotFound (set_found i st) i = true := by
  unfold set_found slotFound
  rw [list_getD_set_self _ _ _ _ h]

theorem set_found_length (i : Nat) (st : PState) :
    (set_found i st).slots.length = st.slots.length := by
  unfold set_found
  exact List.length_set _ _ _

theorem store_option_value_found (i : Nat) (m : Bool) (v : Val) (st : PState)
    (h : i < st.slots.length) :
    slotFound (store_option_value i m v st) i = (st.slots.getD i defaultSlot).found := by
  unfold store_option_value slotFound
  dsimp only
  cases m
  · rw [if_neg Bool.false_ne_true, list_getD_set_self _ _ _ _ h]
  · rw [if_pos rfl, list_getD_set_self _ _ _ _ h]

theorem store_option_value_tuple_found (i : Nat) (m : Bool) (t : Val × List RefSnap)
    (st : PState) (h : i < st.slots.length) :
    slotFound (store_option_value_tuple i m t st) i = (st.slots.getD i defaultSlot).found := by
  unfold store_option_value_tuple slotFound
  dsimp only
  cases m
  · rw [if_neg Bool.false_ne_true, list_getD_set_self _ _ _ _ h]
  · rw [if_pos rfl, list_getD_set_self _ _ _ _ h]

theorem dispatch_sets_found (eh : ErrMsg → Bool) (opts : List OptDesc) (i : Nat)
    (o : OptDesc) (n v : String) (st : PState) (h : i < st.slots.length) :
    slotFound (dispatch_option_with_arg eh opts i o n v st) i = true := by
  unfold dispatch_option_with_arg
  have h1 : i < (set_found i st).slots.length := by rw [set_found_length]; exact h
  have hm : (make_arg eh o v (set_found i st)).2.slots = (set_found i st).slots :=
    make_arg_slots eh o v (set_found i st)
  cases hty : o.ty with
  | refStr names =>
    dsimp only
    rw [store_option_value_tuple_found _ _ _ _ (by rw [hm]; exact h1)]
    have : (make_arg eh o v (set_found i st)).2.slots.getD i defaultSlot
        = (set_found i st).slots.getD i defaultSlot := by rw [hm]
    rw [this]
    exact set_found_found i st h
  | valuesInt allowed =>
    dsimp only
    set vs := make_arg eh o v (set_found i st) with hvs
    have hsl : (if is_valid_option_value allowed vs.1 = true then vs.2
        else handleError eh vs.2 (ErrMsg.invalidValue n v)).slots = vs.2.slots := by
      split
      · rfl
      · rfl
    rw [store_option_value_found _ _ _ _ (by rw [hsl, hm]; exact h1)]
    rw [hsl, hm]
    exact set_found_found i st h
  | str =>
    dsimp only
    rw [store_option_value_found _ _ _ _ (by rw [hm]; exact h1)]
    have : (make_arg eh o v (set_found i st)).2.slots.getD i defaultSlot
        = (set_found i st).slots.getD i defaultSlot := by rw [hm]
    rw [this]
    exact set_found_found i st h
  | int =>
    dsimp only
    rw [store_option_value_found _ _ _ _ (by rw [hm]; exact h1)]
    have : (make_arg eh o v (set_found i st)).2.slots.getD i defaultSlot
        = (set_found i st).slots.getD i defaultSlot := by rw [hm]
    rw [this]
    exact set_found_found i st h
  | flag =>
    dsimp only
    rw [store_option_value_found _ _ _ _ (by rw [hm]; exact h1)]
    have : (make_arg eh o v (set_found i st)).2.slots.getD i defaultSlot
        = (set_found i st).slots.getD i defaultSlot := by rw [hm]
    rw [this]
    exact set_found_found i st h

theorem handle_regular_impl_reject (eh : ErrMsg → Bool) (opts : List OptDesc)
    (args : List String) (i : Nat) (o : OptDesc) (tok : String) (argi : Nat)
    (st : PState) (hshort : o.isShort = false)
    (hpre : strStartsWith tok o.name = true)
    (hlen : strLen o.name < strLen tok)
    (hne : strCharAt tok (strLen o.name) ≠ some '=')
    (hfound : slotFound st i = false) :
    handle_regular_impl eh opts args i o tok argi st = (false, argi, st) := by
  unfold handle_regular_impl
  rw [if_pos hpre, if_neg (by simp [hfound])]
  by_cases hty : o.ty = OptTy.flag
  · rw [if_pos hty, if_neg (fun he => by rw [he] at hlen; exact Nat.lt_irrefl _ hlen)]
  · rw [if_neg hty]
    unfold handle_opt_with_arg
    rw [if_pos hlen, if_neg (by simp [hne, hshort])]

theorem handleRegularList_reject (eh : ErrMsg → Bool) (opts : List OptDesc)
    (args : List String) (i : Nat) (o : OptDesc) (rest : List (Nat × OptDesc))
    (tok : String) (argi : Nat) (st : PState) (hshort : o.isShort = false)
    (hpre : strStartsWith tok o.name = true)
    (hlen : strLen o.name < strLen tok)
    (hne : strCharAt tok (strLen o.name) ≠ some '=')
    (hfound : slotFound st i = false) :
    handleRegularList eh opts args ((i, o) :: rest) tok argi st
      = handleRegularList eh opts args rest tok argi st := by
  conv_lhs => unfold handleRegularList
  by_cases hp : o.positional = true
  · rw [if_pos hp]
  · rw [if_neg hp,
      handle_regular_impl_reject eh opts args i o tok argi st hshort hpre hlen hne hfound]

theorem handle_regular_impl_duplicate (eh : ErrMsg → Bool) (opts : List OptDesc)
    (args : List String) (i : Nat) (o : OptDesc) (tok : String) (argi : Nat)
    (st : PState) (hpre : strStartsWith tok o.name = true)
    (hmul : o.multiple = false) (hov : o.overridable = false)
    (hfound : slotFound st i = true) :
    handle_regular_impl eh opts args i o tok argi st
      = (false, argi, handleError eh st (ErrMsg.duplicateOption tok)) := by
  unfold handle_regular_impl
  rw [if_pos hpre, if_pos ⟨hmul, hov, hfound⟩]

theorem handleRegularList_duplicate (eh : ErrMsg → Bool) (opts : List OptDesc)
    (args : List String) (i : Nat) (o : OptDesc) (rest : List (Nat × OptDesc))
    (tok : String) (argi : Nat) (st : PState) (hp : o.positional = false)
    (hpre : strStartsWith tok o.name = true)
    (hmul : o.multiple = false) (hov : o.overridable = false)
    (hfound : slotFound st i = true) :
    handleRegularList eh opts args ((i, o) :: rest) tok argi st
      = handleRegularList eh opts args rest tok argi
          (handleError eh st (ErrMsg.duplicateOption tok)) := by
  conv_lhs => unfold handleRegularList
  rw [if_neg (by simp [hp]),
    handle_regular_impl_duplicate eh opts args i o tok argi st hpre hmul hov hfound]

theorem requiredScanList_errors (eh : ErrMsg → Bool) (opts : List OptDesc)
    (l : List OptDesc) (st : PState) :
    (requiredScanList eh opts l st).errors
      = st.errors
        ++ (l.filter (fun o => !(slotFound st (optIndex opts o.name)) && o.required)).map
            (fun o => ErrMsg.missingRequired o.name) := by
  induction l generalizing st with
  | nil => simp [requiredScanList]
  | cons o rest ih =>
    unfold requiredScanList
    cases hs : slotFound st (optIndex opts o.name) <;> cases hr : o.required <;>
      simp only [slotFound, List.getD_eq_getElem?_getD] at hs <;>
      simp [hs, hr, ih, handleError, slotFound, List.filter_cons, List.append_assoc]

theorem scanLoop_stop (eh : ErrMsg → Bool) (opts : List OptDesc) (stops : List String)
    (args : List String) (fuel argi : Nat) (st : PState) (tok : String)
    (hget : args.get? argi = some tok) (hmem : tok ∈ stops) :
    scanLoop eh opts stops args (fuel + 1) argi st = (argi + 1, st, ExitKind.stopped) := by
  unfold scanLoop
  rw [hget]
  dsimp only
  rw [if_pos hmem]

theorem runParse_unprocessed_of_stopped (eh : ErrMsg → Bool) (opts : List OptDesc)
    (stops : List String) (args : List String) (argi : Nat) (st : PState)
    (hne : stops ≠ [])
    (hscan : scanLoop eh opts stops args (args.length + 1) 0 (initState opts)
      = (argi, st, ExitKind.stopped)) :
    (runParse opts stops eh args).unprocessed = args.drop argi := by
  unfold runParse
  rw [hscan]
  have he : stops.isEmpty = false := by
    cases stops with
    | nil => exact absurd rfl hne
    | cons a l => rfl
  simp [he]

theorem runParse_errors_of_exit (eh : ErrMsg → Bool) (opts : List OptDesc)
    (stops : List String) (args : List String) (argi : Nat) (st : PState) (k : ExitKind)
    (hscan : scanLoop eh opts stops args (args.length + 1) 0 (initState opts)
      = (argi, st, k))
    (hk : k ≠ ExitKind.errored) :
    (runParse opts stops eh args).errors = (required_scan eh opts st).errors := by
  unfold runParse
  rw [hscan]
  cases k with
  | errored => exact absurd rfl hk
  | normal => rfl
  | stopped => rfl

theorem store_option_value_multi_append (i : Nat) (v : Val) (st : PState)
    (h : i < st.slots.length) :
    ((store_option_value i true v st).slots.getD i defaultSlot).multiVals
      = (st.slots.getD i defaultSlot).multiVals ++ [v] := by
  unfold store_option_value
  dsimp only
  rw [if_pos rfl, list_getD_set_self _ _ _ _ h]

theorem handlePositionalList_skip_regular (eh : ErrMsg → Bool) (opts : List OptDesc)
    (i : Nat) (o : OptDesc) (rest : List (Nat × OptDesc)) (tok : String) (st : PState)
    (hp : o.positional = false) :
    handlePositionalList eh opts ((i, o) :: rest) tok st
      = handlePositionalList eh opts rest tok st := by
  conv_lhs => unfold handlePositionalList
  rw [if_neg (by simp [hp])]

theorem handlePositionalList_skip_found (eh : ErrMsg → Bool) (opts : List OptDesc)
    (i : Nat) (o : OptDesc) (rest : List (Nat × OptDesc)) (tok : String) (st : PState)
    (hp : o.positional = true) (hmul : o.multiple = false)
    (hfound : slotFound st i = true) :
    handlePositionalList eh opts ((i, o) :: rest) tok st
      = handlePositionalList eh opts rest tok st := by
  conv_lhs => unfold handlePositionalList
  rw [if_pos hp]
  unfold handle_positional_impl
  rw [if_pos ⟨hmul, hfound⟩]

theorem handlePositionalList_accept (eh : ErrMsg → Bool) (opts : List OptDesc)
    (i : Nat) (o : OptDesc) (rest : List (Nat × OptDesc)) (tok : String) (st : PState)
    (hp : o.positional = true)
    (hacc : o.multiple = true ∨ slotFound st i = false) :
    handlePositionalList eh opts ((i, o) :: rest) tok st
      = (true, dispatch_option_with_arg eh opts i o o.name tok st) := by
  conv_lhs => unfold handlePositionalList
  rw [if_pos hp]
  unfold handle_positional_impl
  rw [if_neg (by
    intro hc
    rcases hacc with h1 | h1
    · rw [hc.1] at h1
      exact Bool.false_ne_true h1
    · rw [h1] at hc
      exact Bool.false_ne_true hc.2)]

/-! Claim theorems. -/

/-- C1: Exact-match precedence of regular-option matching. A non-short
candidate whose name is a proper prefix of the token with no `'='` at the
position after the name (and that is not already found) is rejected by
`handle_regular_impl` with the state untouched, so the matcher falls
through to the next candidate in declaration order; consequently, with
descriptors `-x` and `-xyz` declared in that order, token `-xyz` binds to
the option named `-xyz` (with `-x` left unmatched and no error), and token
`-x=5` binds to `-x` with inline value `5`. -/
theorem exact_match_precedence :
    (∀ (eh : ErrMsg → Bool) (opts : List OptDesc) (args : List String) (i : Nat)
      (o : OptDesc) (tok : String) (argi : Nat) (st : PState),
      o.isShort = false →
      strStartsWith tok o.name = true →
      strLen o.name < strLen tok →
      strCharAt tok (strLen o.name) ≠ some '=' →
      slotFound st i = false →
      handle_regular_impl eh opts args i o tok argi st = (false, argi, st))
    ∧ (∀ (eh : ErrMsg → Bool) (opts : List OptDesc) (args : List String) (i : Nat)
      (o : OptDesc) (rest : List (Nat × OptDesc)) (tok : String) (argi : Nat)
      (st : PState),
      o.isShort = false →
      strStartsWith tok o.name = true →
      strLen o.name < strLen tok →
      strCharAt tok (strLen o.name) ≠ some '=' →
      slotFound st i = false →
      handleRegularList eh opts args ((i, o) :: rest) tok argi st
        = handleRegularList eh opts args rest tok argi st)
    ∧ ((runParse xXyzOpts [] ehTrue ["-xyz", "v"]).getOpt xXyzOpts "-xyz"
        = some (Val.vStr "v")
      ∧ (runParse xXyzOpts [] ehTrue ["-xyz", "v"]).getOpt xXyzOpts "-x" = none
      ∧ (runParse xXyzOpts [] ehTrue ["-xyz", "v"]).errors = []
      ∧ (runParse xXyzOpts [] ehTrue ["-x=5"]).getOpt xXyzOpts "-x" = some (Val.vStr "5")
      ∧ (runParse xXyzOpts [] ehTrue ["-x=5"]).getOpt xXyzOpts "-xyz" = none
      ∧ (runParse xXyzOpts [] ehTrue ["-x=5"]).errors = []) := by
  refine ⟨?_, ?_, ?_⟩
  · intro eh opts args i o tok argi st h1 h2 h3 h4 h5
    exact handle_regular_impl_reject eh opts args i o tok argi st h1 h2 h3 h4 h5
  · intro eh opts args i o rest tok argi st h1 h2 h3 h4 h5
    exact handleRegularList_reject eh opts args i o rest tok argi st h1 h2 h3 h4 h5
  · decide

/-- Witness for C1 at a concrete input: the candidate `-x` rejects the
token `-xyz` in the initial state. -/
theorem exact_match_precedence_witness :
    handle_regular_impl ehTrue xXyzOpts ["-xyz"] 0 (mkOpt "-x" OptTy.str) "-xyz" 0
      (initState xXyzOpts) = (false, 0, initState xXyzOpts) :=
  exact_match_precedence.1 ehTrue xXyzOpts ["-xyz"] 0 (mkOpt "-x" OptTy.str) "-xyz" 0
    (initState xXyzOpts) (by decide) (by decide) (by decide) (by decide) (by decide)

/-- C2 counterexample: the claim that a duplicate option error is raised
only on a direct match (exact name or name followed by `'='`), with the
token consumed and not offered to later options, is false. With `-x`
(string, non-overridable) already found, the token `-xyz=5` — which is not
a direct match for `-x` — still triggers the duplicate error, and the very
same token is then matched by the later option `-xyz`, which receives the
inline value `5`. -/
theorem duplicate_on_prefix_counterexample :
    (runParse xXyzOpts [] ehTrue ["-x", "1", "-xyz=5"]).errors
      = [ErrMsg.duplicateOption "-xyz=5"]
    ∧ ¬("-xyz=5" = "-x" ∨ strStartsWith "-xyz=5" "-x=" = true)
    ∧ (runParse xXyzOpts [] ehTrue ["-x", "1", "-xyz=5"]).getOpt xXyzOpts "-xyz"
      = some (Val.vStr "5") := by
  decide

/-- C2 (amended): for a non-`multiple<>`, non-overridable option whose
found bit is already set, `handle_regular_impl` raises the duplicate-option
error as soon as the token merely starts with the option's name — before
any direct-match test — and then reports no match, so the token is still
offered to the remaining regular options, then to the positionals, and is
additionally reported as unrecognized when nothing else matches (as in the
single-option run below, where a repeated `-x` produces both a
duplicate-option and an unrecognized-option error and the value token `b`
a further unrecognized-option error). -/
theorem duplicate_error_on_prefix_match :
    (∀ (eh : ErrMsg → Bool) (opts : List OptDesc) (args : List String) (i : Nat)
      (o : OptDesc) (tok : String) (argi : Nat) (st : PState),
      strStartsWith tok o.name = true →
      o.multiple = false →
      o.overridable = false →
      slotFound st i = true →
      handle_regular_impl eh opts args i o tok argi st
        = (false, argi, handleError eh st (ErrMsg.duplicateOption tok)))
    ∧ (∀ (eh : ErrMsg → Bool) (opts : List OptDesc) (args : List String) (i : Nat)
      (o : OptDesc) (rest : List (Nat × OptDesc)) (tok : String) (argi : Nat)
      (st : PState),
      o.positional = false →
      strStartsWith tok o.name = true →
      o.multiple = false →
      o.overridable = false →
      slotFound st i = true →
      handleRegularList eh opts args ((i, o) :: rest) tok argi st
        = handleRegularList eh opts args rest tok argi
            (handleError eh st (ErrMsg.duplicateOption tok)))
    ∧ (runParse [mkOpt "-x" OptTy.str] [] ehTrue ["-x", "a", "-x", "b"]).errors
      = [ErrMsg.duplicateOption "-x", ErrMsg.unrecognized "-x", ErrMsg.unrecognized "b"] := by
  refine ⟨?_, ?_, ?_⟩
  · intro eh opts args i o tok argi st h1 h2 h3 h4
    exact handle_regular_impl_duplicate eh opts args i o tok argi st h1 h2 h3 h4
  · intro eh opts args i o rest tok argi st h0 h1 h2 h3 h4
    exact handleRegularList_duplicate eh opts args i o rest tok argi st h0 h1 h2 h3 h4
  · decide

/-- Witness for the amended C2 at a concrete input: with `-x` marked
found, the non-direct-match token `-xyz=5` raises the duplicate error and
the candidate reports no match. -/
theorem duplicate_error_on_prefix_match_witness :
    handle_regular_impl ehTrue xXyzOpts ["-xyz=5"] 0 (mkOpt "-x" OptTy.str) "-xyz=5" 0
      (set_found 0 (initState xXyzOpts))
      = (false, 0, handleError ehTrue (set_found 0 (initState xXyzOpts))
          (ErrMsg.duplicateOption "-xyz=5")) :=
  duplicate_error_on_prefix_match.1 ehTrue xXyzOpts ["-xyz=5"] 0 (mkOpt "-x" OptTy.str)
    "-xyz=5" 0 (set_found 0 (initState xXyzOpts)) (by decide) (by decide) (by decide)
    (by decide)

/-- C3: Reference snapshotting. With `-x` an overridable string option and
`-y` a `multiple<>` option of type `ref<std::string, "-x">`, the input
`-y a -x 1 -y b` stores for `-y` the tuples `("a", None)` and
`("b", Some "1")`: each match of `-y` captures its own converted value
together with the referenced option's state at that moment. The second
run additionally shows a referenced flag captured as a `bool` and a
referenced `multiple<>` option captured as a deep copy of its list so
far. -/
theorem reference_snapshotting :
    ((runParse refOpts [] ehTrue ["-y", "a", "-x", "1", "-y", "b"]).getTuples refOpts "-y"
      = [(Val.vStr "a", [RefSnap.singleSnap none]),
         (Val.vStr "b", [RefSnap.singleSnap (some (Val.vStr "1"))])]
      ∧ (runParse refOpts [] ehTrue ["-y", "a", "-x", "1", "-y", "b"]).errors = [])
    ∧ ((runParse refOpts2 [] ehTrue ["-y", "a", "--f", "-v", "p", "-y", "b"]).getTuples
        refOpts2 "-y"
      = [(Val.vStr "a", [RefSnap.flagSnap false, RefSnap.multiSnap []]),
         (Val.vStr "b", [RefSnap.flagSnap true, RefSnap.multiSnap [Val.vStr "p"]])]
      ∧ (runParse refOpts2 [] ehTrue ["-y", "a", "--f", "-v", "p", "-y", "b"]).errors = []) := by
  decide

/-- C4: the code contradicts the claim (and the repository's README, which
documents integer options as parsed "as per `std::strtoll`"): `make_arg`
passes `std::strtoull`, so the numeral `9223372036854775808` (`2 ^ 63`,
outside the signed 64-bit range) raises no conversion error and is stored
wrapped as `-9223372036854775808`. The strict-whole-string part of the
claim does hold (empty string and trailing characters are errors), and a
numeral at or above `2 ^ 64` is an error via `ERANGE` — which is the only
overflow the code detects, as in the repository's own overflow test. -/
theorem integer_overflow_not_detected :
    ((runParse overflowOpts [] ehTrue ["--overflow", "9223372036854775808"]).errors = []
      ∧ (runParse overflowOpts [] ehTrue ["--overflow", "9223372036854775808"]).getOpt
          overflowOpts "--overflow" = some (Val.vInt (-9223372036854775808))
      ∧ ((2 : Int) ^ 63 - 1 < 9223372036854775808))
    ∧ ((runParse overflowOpts [] ehTrue
          ["--overflow", "100000000000000000000000000000000000000000000000"]).errors
        = [ErrMsg.badNumber "100000000000000000000000000000000000000000000000" "integer"]
      ∧ (runParse overflowOpts [] ehTrue ["--overflow", ""]).errors
        = [ErrMsg.emptyNumber "integer"]
      ∧ (runParse overflowOpts [] ehTrue ["--overflow", "7a"]).errors
        = [ErrMsg.badNumber "7a" "integer"]) := by
  decide

/-- C5: Missing required options surface after the scan loop. The
end-of-input scan reports, in declaration order, one missing-required
error per required descriptor whose found bit is unset; whenever the scan
loop exits without an error abort, the errors of `parse` are exactly those
of that scan applied to the loop's final state; an option set with one
required option and zero input tokens yields exactly one
missing-required-option error for every error handler; and the required
error is still reported after an earlier unrelated error was continued
past. -/
theorem missing_required_after_scan :
    (∀ (eh : ErrMsg → Bool) (opts : List OptDesc) (l : List OptDesc) (st : PState),
      (requiredScanList eh opts l st).errors
        = st.errors
          ++ (l.filter (fun o => !(slotFound st (optIndex opts o.name)) && o.required)).map
              (fun o => ErrMsg.missingRequired o.name))
    ∧ (∀ (eh : ErrMsg → Bool) (opts : List OptDesc) (stops : List String)
      (args : List String) (argi : Nat) (st : PState) (k : ExitKind),
      scanLoop eh opts stops args (args.length + 1) 0 (initState opts) = (argi, st, k) →
      k ≠ ExitKind.errored →
      (runParse opts stops eh args).errors = (required_scan eh opts st).errors)
    ∧ (∀ (eh : ErrMsg → Bool),
      (runParse requiredOpts [] eh []).errors = [ErrMsg.missingRequired "-r"])
    ∧ (runParse requiredOpts [] ehTrue ["bogus"]).errors
      = [ErrMsg.unrecognized "bogus", ErrMsg.missingRequired "-r"] := by
  refine ⟨?_, ?_, ?_, ?_⟩
  · intro eh opts l st
    exact requiredScanList_errors eh opts l st
  · intro eh opts stops args argi st k hscan hk
    exact runParse_errors_of_exit eh opts stops args argi st k hscan hk
  · intro eh
    rfl
  · decide

/-- Witness for C5 at a concrete input: the one-required-option set with
zero tokens exits the loop normally, and the errors of `parse` are those
of the required-option scan. -/
theorem missing_required_after_scan_witness :
    (runParse requiredOpts [] ehTrue []).errors
      = (required_scan ehTrue requiredOpts (initState requiredOpts)).errors :=
  missing_required_after_scan.2.1 ehTrue requiredOpts [] [] 0 (initState requiredOpts)
    ExitKind.normal (by decide) (by decide)

/-- C6: Stop-sentinel tail capture. A token equal to a sentinel stops the
scan immediately with the state untouched; when the loop stops this way the
unprocessed-tail accessor returns exactly the arguments after the sentinel;
on `--foo arg -- --bar --baz` with sentinel `--` this yields
`foo == "arg"`, tail `["--bar", "--baz"]` and no errors (so `--bar` and
`--baz` were never matched); and the tail is empty when no sentinel
descriptor exists or the sentinel is never matched. -/
theorem stop_sentinel_tail_capture :
    (∀ (eh : ErrMsg → Bool) (opts : List OptDesc) (stops : List String)
      (args : List String) (fuel argi : Nat) (st : PState) (tok : String),
      args.get? argi = some tok →
      tok ∈ stops →
      scanLoop eh opts stops args (fuel + 1) argi st = (argi + 1, st, ExitKind.stopped))
    ∧ (∀ (eh : ErrMsg → Bool) (opts : List OptDesc) (stops : List String)
      (args : List String) (argi : Nat) (st : PState),
      stops ≠ [] →
      scanLoop eh opts stops args (args.length + 1) 0 (initState opts)
        = (argi, st, ExitKind.stopped) →
      (runParse opts stops eh args).unprocessed = args.drop argi)
    ∧ ((runParse fooOpts ["--"] ehTrue ["--foo", "arg", "--", "--bar", "--baz"]).getOpt
        fooOpts "--foo" = some (Val.vStr "arg")
      ∧ (runParse fooOpts ["--"] ehTrue ["--foo", "arg", "--", "--bar", "--baz"]).unprocessed
        = ["--bar", "--baz"]
      ∧ (runParse fooOpts ["--"] ehTrue ["--foo", "arg", "--", "--bar", "--baz"]).errors = []
      ∧ (runParse fooOpts [] ehTrue ["--foo", "arg"]).unprocessed = []
      ∧ (runParse fooOpts ["--"] ehTrue ["--foo", "arg"]).unprocessed = []) := by
  refine ⟨?_, ?_, ?_⟩
  · intro eh opts stops args fuel argi st tok h1 h2
    exact scanLoop_stop eh opts stops args fuel argi st tok h1 h2
  · intro eh opts stops args argi st h1 h2
    exact runParse_unprocessed_of_stopped eh opts stops args argi st h1 h2
  · decide

/-- Witness for C6 at a concrete input: the sentinel `--` at cursor 2
stops the scan with the state untouched. -/
theorem stop_sentinel_tail_capture_witness :
    scanLoop ehTrue fooOpts ["--"] ["--foo", "arg", "--", "--bar", "--baz"] 1 2
      (initState fooOpts) = (3, initState fooOpts, ExitKind.stopped) :=
  stop_sentinel_tail_capture.1 ehTrue fooOpts ["--"]
    ["--foo", "arg", "--", "--bar", "--baz"] 0 2 (initState fooOpts) "--" (by decide)
    (by decide)

/-- C7: Positional fill order. The positional fold skips non-positional
descriptors and skips an already-found single positional, and the first
positional descriptor that is `multiple<>` or not yet found accepts the
token via `dispatch_option_with_arg` — which marks it found; concretely,
optional single positionals `first`, `second` against `hello 42` yield
`first == "hello"`, `second == "42"`, also with a named option `--opt v`
interleaved in the input. -/
theorem positional_fill_order :
    (∀ (eh : ErrMsg → Bool) (opts : List OptDesc) (i : Nat) (o : OptDesc)
      (rest : List (Nat × OptDesc)) (tok : String) (st : PState),
      o.positional = false →
      handlePositionalList eh opts ((i, o) :: rest) tok st
        = handlePositionalList eh opts rest tok st)
    ∧ (∀ (eh : ErrMsg → Bool) (opts : List OptDesc) (i : Nat) (o : OptDesc)
      (rest : List (Nat × OptDesc)) (tok : String) (st : PState),
      o.positional = true →
      o.multiple = false →
      slotFound st i = true →
      handlePositionalList eh opts ((i, o) :: rest) tok st
        = handlePositionalList eh opts rest tok st)
    ∧ (∀ (eh : ErrMsg → Bool) (opts : List OptDesc) (i : Nat) (o : OptDesc)
      (rest : List (Nat × OptDesc)) (tok : String) (st : PState),
      o.positional = true →
      (o.multiple = true ∨ slotFound st i = false) →
      handlePositionalList eh opts ((i, o) :: rest) tok st
        = (true, dispatch_option_with_arg eh opts i o o.name tok st))
    ∧ (∀ (eh : ErrMsg → Bool) (opts : List OptDesc) (i : Nat) (o : OptDesc)
      (n v : String) (st : PState),
      i < st.slots.length →
      slotFound (dispatch_option_with_arg eh opts i o n v st) i = true)
    ∧ ((runParse posOpts [] ehTrue ["hello", "42"]).getOpt posOpts "first"
        = some (Val.vStr "hello")
      ∧ (runParse posOpts [] ehTrue ["hello", "42"]).getOpt posOpts "second"
        = some (Val.vStr "42")
      ∧ (runParse posOpts [] ehTrue ["hello", "42"]).errors = []
      ∧ (runParse posOptsMixed [] ehTrue ["hello", "--opt", "v", "42"]).getOpt
          posOptsMixed "first" = some (Val.vStr "hello")
      ∧ (runParse posOptsMixed [] ehTrue ["hello", "--opt", "v", "42"]).getOpt
          posOptsMixed "second" = some (Val.vStr "42")
      ∧ (runParse posOptsMixed [] ehTrue ["hello", "--opt", "v", "42"]).getOpt
          posOptsMixed "--opt" = some (Val.vStr "v")
      ∧ (runParse posOptsMixed [] ehTrue ["hello", "--opt", "v", "42"]).errors = []) := by
  refine ⟨?_, ?_, ?_, ?_, ?_⟩
  · intro eh opts i o rest tok st h1
    exact handlePositionalList_skip_regular eh opts i o rest tok st h1
  · intro eh opts i o rest tok st h1 h2 h3
    exact handlePositionalList_skip_found eh opts i o rest tok st h1 h2 h3
  · intro eh opts i o rest tok st h1 h2
    exact handlePositionalList_accept eh opts i o rest tok st h1 h2
  · intro eh opts i o n v st h
    exact dispatch_sets_found eh opts i o n v st h
  · decide

/-- Witness for C7 at a concrete input: the not-yet-found positional
`first` accepts the token `hello`. -/
theorem positional_fill_order_witness :
    handlePositionalList ehTrue posOpts
      [(0, { mkOpt "first" OptTy.str with positional := true })] "hello" (initState posOpts)
      = (true, dispatch_option_with_arg ehTrue posOpts 0
          { mkOpt "first" OptTy.str with positional := true } "first" "hello"
          (initState posOpts)) :=
  positional_fill_order.2.2.1 ehTrue posOpts 0
    { mkOpt "first" OptTy.str with positional := true } [] "hello" (initState posOpts)
    (by decide) (Or.inr (by decide))

/-- C8: ValueSet membership check. For the integer
`values<2, 3, 5, 7, 11, 13>` option `--prime`, the input `4` converts
successfully and then fails the membership check, raising exactly the
value-not-allowed error (a different message from a conversion error);
the input `7` succeeds with no error and stores `7`; and a
non-numeric input shows the order of operations — the conversion error is
reported first, then membership of the converted fallback value is
checked. -/
theorem valueset_membership_check :
    ((runParse primeOpts [] ehTrue ["--prime", "4"]).errors
      = [ErrMsg.invalidValue "--prime" "4"]
      ∧ (runParse primeOpts [] ehTrue ["--prime", "4"]).getOpt primeOpts "--prime"
        = some (Val.vInt 4))
    ∧ ((runParse primeOpts [] ehTrue ["--prime", "7"]).errors = []
      ∧ (runParse primeOpts [] ehTrue ["--prime", "7"]).getOpt primeOpts "--prime"
        = some (Val.vInt 7))
    ∧ (runParse primeOpts [] ehTrue ["--prime", "abc"]).errors
      = [ErrMsg.badNumber "abc" "integer", ErrMsg.invalidValue "--prime" "abc"] := by
  decide

/-- C9: Multiple accumulates in encounter order. `store_option_value` with
the `multiple<>` flag appends the new value at the end of the stored list,
and the `multiple<>` integer option `--int` on input
`--int 1 --int 2 --int 3` stores exactly `[1, 2, 3]` in that order. -/
theorem multiple_accumulates_in_order :
    (∀ (i : Nat) (v : Val) (st : PState),
      i < st.slots.length →
      ((store_option_value i true v st).slots.getD i defaultSlot).multiVals
        = (st.slots.getD i defaultSlot).multiVals ++ [v])
    ∧ ((runParse multiIntOpts [] ehTrue
        ["--int", "1", "--int", "2", "--int", "3"]).getMultiple multiIntOpts "--int"
      = [Val.vInt 1, Val.vInt 2, Val.vInt 3]
      ∧ (runParse multiIntOpts [] ehTrue
          ["--int", "1", "--int", "2", "--int", "3"]).errors = []) := by
  refine ⟨?_, ?_⟩
  · intro i v st h
    exact store_option_value_multi_append i v st h
  · decide

/-- Witness for C9 at a concrete input: appending to the empty stored list
of the `--int` slot. -/
theorem multiple_accumulates_in_order_witness :
    ((store_option_value 0 true (Val.vInt 9) (initState multiIntOpts)).slots.getD 0
        defaultSlot).multiVals
      = ((initState multiIntOpts).slots.getD 0 defaultSlot).multiVals ++ [Val.vInt 9] :=
  multiple_accumulates_in_order.1 0 (Val.vInt 9) (initState multiIntOpts) (by decide)

/-- C10: error commits are not atomic for value-taking options. With a
continuing error handler, a conversion error on `-n 12abc` still leaves the
option reported as found and commits the conversion routine's fallback
result (`12`, the numeric prefix parsed by `strtoull`) into storage; a
value-not-allowed error on `--prime 4` likewise leaves the option found
with the out-of-set value `4` committed. -/
theorem error_commits_not_atomic :
    ((runParse intOpts [] ehTrue ["-n", "12abc"]).errors
      = [ErrMsg.badNumber "12abc" "integer"]
      ∧ (runParse intOpts [] ehTrue ["-n", "12abc"]).hasOpt intOpts "-n" = true
      ∧ (runParse intOpts [] ehTrue ["-n", "12abc"]).getOpt intOpts "-n"
        = some (Val.vInt 12))
    ∧ ((runParse primeOpts [] ehTrue ["--prime", "4"]).hasOpt primeOpts "--prime" = true
      ∧ (runParse primeOpts [] ehTrue ["--prime", "4"]).getOpt primeOpts "--prime"
        = some (Val.vInt 4)) := by
  decide

end Clopts
